import Mathlib

/-!
Verification development for the pipeline-corrosion POF (probability of
failure) assessment tool.  The repository ships the dashboard layer
(src/visualization.py); the simulation engine it drives (the orchestration
module with run_simulation, the data loader, the imputation model, the
growth projector and the Monte Carlo reliability engine) is described by
the specification.  Definitions below are a shallow embedding: the
dashboard control flow is translated from src/visualization.py, and the
engine components are modelled from the specification where their source
is not part of the repository.  Machine reals are modelled as rationals.
-/

/-- Modelled from the spec: GrowthProjector (missing from src/, only the
spec describes it).  Depth at year offset k is
min (depth0 + rate * k, wall_thickness): growth clamped at full wall
penetration. -/
def GrowthProjector.depth (depth0 rate wall_thickness : ℚ) (k : ℕ) : ℚ :=
  min (depth0 + rate * (k : ℚ)) wall_thickness

/-- Modelled from the spec: the sampled depth distribution is truncated to
the physical band [0, wall_thickness]. -/
def clampDepth (wall_thickness x : ℚ) : ℚ :=
  max 0 (min x wall_thickness)

/-- Modelled from the spec: the structural limit-state (capacity) formula
is implementation-defined (spec section 9, open question); the spec fixes
only that it relates remaining wall thickness, geometry and material
strength to a maximum safe operating pressure and degrades monotonically
with depth.  We use a simplified burst-pressure form
2 * strength * wt / dia * (1 - d / wt). -/
def capacity (strength wall_thickness dia d : ℚ) : ℚ :=
  2 * strength * wall_thickness / dia * (1 - d / wall_thickness)

/-- Per-defect inputs of the Monte Carlo reliability engine. -/
structure EngineDefect where
  id : ℕ
  dist : ℚ
  depth0 : ℚ
  rate : ℚ
  wt : ℚ
  dia : ℚ
  strength : ℚ
  demand : ℚ
  tol : ℚ
deriving DecidableEq

/-- Modelled from the spec: one randomized depth realization, centered at
the projected depth with spread tolerance * wall thickness, truncated to
[0, wall_thickness]. -/
def sampleDepth (d : EngineDefect) (k : ℕ) (e : ℚ) : ℚ :=
  clampDepth d.wt (GrowthProjector.depth d.depth0 d.rate d.wt k + d.tol * d.wt * e)

/-- Modelled from the spec: a sample fails when capacity falls below the
operating demand. -/
def sampleFails (d : EngineDefect) (k : ℕ) (e : ℚ) : Bool :=
  decide (capacity d.strength d.wt d.dia (sampleDepth d k e) < d.demand)

/-- Modelled from the spec: POF(defect, year) is the fraction of Monte
Carlo samples in which capacity is below demand.  The noise list is the
seeded sample stream. -/
def pofMC (d : EngineDefect) (noise : List ℚ) (k : ℕ) : ℚ :=
  ((noise.countP (sampleFails d k) : ℕ) : ℚ) / ((noise.length : ℕ) : ℚ)

/-- Modelled from the spec: an explicit seedable generator (a linear
congruential step) so that sampling is a deterministic function of the
seed. -/
def lcgStep (s : ℕ) : ℕ :=
  (1103515245 * s + 12345) % 2147483648

/-- Modelled from the spec: noise value in [-1, 1] derived from one
generator state. -/
def lcgNoise (s : ℕ) : ℚ :=
  ((s % 2001 : ℕ) : ℚ) / 1000 - 1

/-- Modelled from the spec: the seeded stream of n noise samples. -/
def noiseStream : ℕ → ℕ → List ℚ
  | _, 0 => []
  | s, n + 1 => lcgNoise (lcgStep s) :: noiseStream (lcgStep s) n

/-- Modelled from the spec: a defect is non-physical when its depth is
negative or its wall thickness is not positive (spec failure policy,
section 4.4). -/
def nonPhysical (d : EngineDefect) : Bool :=
  decide (d.depth0 < 0) || decide (d.wt ≤ 0)

/-- One row of the per-(defect, year) POF result table.  Field names match
the column labels the dashboard reads from the table
(src/visualization.py, the Junta_ID, Year, Distance and POF columns). -/
structure PofRow where
  Junta_ID : ℕ
  Year : ℕ
  Distance : ℚ
  POF : ℚ
deriving DecidableEq

/-- Modelled from the spec: one table row per year offset 0..numYears for
a defect. -/
def defectRows (noise : List ℚ) (numYears : ℕ) (d : EngineDefect) : List PofRow :=
  (List.range (numYears + 1)).map (fun k => ⟨d.id, k, d.dist, pofMC d noise k⟩)

/-- Modelled from the spec: the Monte Carlo loop.  Non-physical defects
are excluded from the table and reported in the diagnostics list of
excluded ids (second component). -/
def runEngine (defects : List EngineDefect) (noise : List ℚ) (numYears : ℕ) :
    List PofRow × List ℕ :=
  ((defects.filter (fun d => !nonPhysical d)).flatMap (defectRows noise numYears),
    (defects.filter nonPhysical).map (fun d => d.id))

/-- One unified per-defect input record (output of the FeatureAssembler,
modelled from the spec). -/
structure DefectRecord where
  id : ℕ
  dist : ℚ
  defectType : String
  iliDepth : ℚ
  fieldDepth : Option ℚ
  covariate : ℚ
  rate : ℚ
  wt : ℚ
  dia : ℚ
  strength : ℚ
  demand : ℚ
deriving DecidableEq

/-- Modelled from the spec: failure mode of the depth imputation model. -/
inductive ModelError where
  | insufficientTrainingData
deriving DecidableEq

/-- Modelled from the spec: the fitted depth model.  Its internals are
implementation-defined; we keep the mean of the training targets. -/
structure Model where
  meanDepth : ℚ
deriving DecidableEq

/-- Sum of a list of rationals. -/
def ratSum (l : List ℚ) : ℚ :=
  l.foldr (fun a b => a + b) 0

/-- Modelled from the spec: training uses the field-verified depths as
targets; with zero field-verified rows the model fails with
InsufficientTrainingDataError. -/
def trainModel (records : List DefectRecord) : Except ModelError Model :=
  let targets := records.filterMap (fun r => r.fieldDepth)
  if targets.length = 0 then
    Except.error ModelError.insufficientTrainingData
  else
    Except.ok ⟨ratSum targets / ((targets.length : ℕ) : ℚ)⟩

/-- Modelled from the spec: model prediction for one record. -/
def predict (m : Model) (_r : DefectRecord) : ℚ :=
  m.meanDepth

/-- Modelled from the spec: the global model-uncertainty status flag. -/
inductive UncStatus where
  | available
  | unavailable
deriving DecidableEq

/-- Modelled from the spec: best-available depth at T0; field-verified if
present, else the model prediction when a model was fit, else the raw ILI
reading (the fallback path after an imputation failure). -/
def bestDepth (mr : Except ModelError Model) (r : DefectRecord) : ℚ :=
  match mr with
  | Except.error _ => r.iliDepth
  | Except.ok m => r.fieldDepth.getD (predict m r)

/-- One row of the consolidated per-defect output table. -/
structure ConsolidatedRecord where
  id : ℕ
  dist : ℚ
  bestAvailableDepth : ℚ
  predDepthML : Option ℚ
  lowSizingConfidence : Bool
deriving DecidableEq

/-- Modelled from the spec: consolidation of one record.  The ML
prediction is kept only for diagnostics and never overwrites a
field-verified depth; the detection-threshold policy flags low sizing
confidence without suppressing the row. -/
def consolidate (mr : Except ModelError Model) (threshold : ℚ) (r : DefectRecord) :
    ConsolidatedRecord :=
  { id := r.id
    dist := r.dist
    bestAvailableDepth := bestDepth mr r
    predDepthML :=
      match mr with
      | Except.ok m => some (predict m r)
      | Except.error _ => none
    lowSizingConfidence := decide (r.iliDepth / r.wt < threshold) }

/-- Output of the Orchestrator depth stage. -/
structure OrchOut where
  consolidated : List ConsolidatedRecord
  status : UncStatus
  featureImportance : List (String × ℚ)
  shapValues : Option (List (ℕ × ℚ))
deriving DecidableEq

/-- Modelled from the spec: the Orchestrator fits the model, catches
InsufficientTrainingDataError, falls back to the ILI depth for all
defects and degrades the uncertainty status instead of aborting. -/
def orchestrateDepths (threshold : ℚ) (records : List DefectRecord) : OrchOut :=
  let mr := trainModel records
  { consolidated := records.map (consolidate mr threshold)
    status :=
      match mr with
      | Except.ok _ => UncStatus.available
      | Except.error _ => UncStatus.unavailable
    featureImportance :=
      match mr with
      | Except.ok _ => [("covariate", 1)]
      | Except.error _ => []
    shapValues :=
      match mr with
      | Except.ok m => some (records.map (fun r => (r.id, predict m r - m.meanDepth)))
      | Except.error _ => none }

/-- Modelled from the spec: tolerance profile lookup by defect type. -/
def toleranceOf (tolerance_table : List (String × ℚ)) (t : String) : ℚ :=
  (((tolerance_table.find? (fun p => p.1 == t)).map (fun p => p.2)).getD 0)

/-- Modelled from the spec: engine inputs assembled from a consolidated
record. -/
def toEngineDefect (tolerance_table : List (String × ℚ)) (best : ℚ)
    (r : DefectRecord) : EngineDefect :=
  { id := r.id
    dist := r.dist
    depth0 := best
    rate := r.rate
    wt := r.wt
    dia := r.dia
    strength := r.strength
    demand := r.demand
    tol := toleranceOf tolerance_table r.defectType }

/-- Modelled from the spec: default seed of the sampling generator. -/
def defaultSeed : ℕ := 12345

/-- Modelled from the spec: default Monte Carlo sample count. -/
def defaultSampleCount : ℕ := 2000

/-- The result bundle returned by run_simulation.  Fields match the keys
the dashboard reads from the bundle (src/visualization.py: master_df,
pof_results, shap_values, ml_uncertainty_status, feature_importance). -/
structure ResultBundle where
  master_df : List ConsolidatedRecord
  pof_results : List PofRow
  feature_importance : List (String × ℚ)
  ml_uncertainty_status : UncStatus
  shap_values : Option (List (ℕ × ℚ))
  excluded_defects : List ℕ
deriving DecidableEq

/-- Modelled from the spec: the single entry point of the engine, taking
(dataframes, ili_date, target_date, tolerance_table, detection_threshold)
in the order the dashboard calls it (src/visualization.py line 140).
Dates are modelled by their year number; the projection covers integer
year offsets 0 .. (target year - ILI year). -/
def run_simulation (dataframes : List DefectRecord) (ili_date target_date : ℤ)
    (tolerance_table : List (String × ℚ)) (detection_threshold : ℚ) : ResultBundle :=
  let numYears := (target_date - ili_date).toNat
  let mr := trainModel dataframes
  let orch := orchestrateDepths detection_threshold dataframes
  let defects := dataframes.map (fun r => toEngineDefect tolerance_table (bestDepth mr r) r)
  let noise := noiseStream defaultSeed defaultSampleCount
  let engineOut := runEngine defects noise numYears
  { master_df := orch.consolidated
    pof_results := engineOut.1
    feature_importance := orch.featureImportance
    ml_uncertainty_status := orch.status
    shap_values := orch.shapValues
    excluded_defects := engineOut.2 }

/-- Column labels of the per-(defect, year) POF table, as read by the
dashboard from the result table (src/visualization.py lines 161-231:
pof_results is accessed through the Junta_ID, Year, Distance and POF
columns). -/
def pofResultColumns : List String :=
  ["Junta_ID", "Year", "Distance", "POF"]

/-- Keys of the result bundle dictionary, as read by the dashboard
(src/visualization.py lines 150-279). -/
def resultBundleKeys : List String :=
  ["master_df", "pof_results", "shap_values", "ml_uncertainty_status", "feature_importance"]

/-- From src/visualization.py line 99: the detection threshold passed to
run_simulation is the slider value (an integer number of percent) divided
by 100. -/
def detectionThresholdOfSlider (p : ℕ) : ℚ :=
  ((p : ℕ) : ℚ) / 100

/-- From src/visualization.py line 99: lower bound of the slider. -/
def sliderMin : ℕ := 0

/-- From src/visualization.py line 99: upper bound of the slider. -/
def sliderMax : ℕ := 20

/-- From src/visualization.py lines 128-145: the run-button handler.
Inside the try block the data loader runs first, then run_simulation, and
only after run_simulation returns is st.session_state.simulation_results
assigned; any exception jumps to the except block which leaves the stored
results untouched. -/
def processRunClick {D B : Type} (prior : Option B) (load : Except String D)
    (runSim : D → Except String B) : Option B :=
  match load with
  | Except.error _ => prior
  | Except.ok dfs =>
    match runSim dfs with
    | Except.error _ => prior
    | Except.ok results => some results

/-- A run_simulation stand-in that always fails, used to exercise the
failure branch of the run-button handler. -/
def failingRun : ℕ → Except String ℕ :=
  fun _ => Except.error "simulation failed"

/-- The projected depth is non-decreasing in the year offset when the
growth rate is non-negative. -/
theorem depth_mono (depth0 rate wt : ℚ) (hr : 0 ≤ rate) {k1 k2 : ℕ} (hk : k1 ≤ k2) :
    GrowthProjector.depth depth0 rate wt k1 ≤ GrowthProjector.depth depth0 rate wt k2 := by
  unfold GrowthProjector.depth
  have hkq : (k1 : ℚ) ≤ (k2 : ℚ) := by exact_mod_cast hk
  exact min_le_min (add_le_add_left (mul_le_mul_of_nonneg_left hkq hr) _) le_rfl

/-- Truncation to the physical depth band is monotone. -/
theorem clampDepth_mono (wt : ℚ) {x1 x2 : ℚ} (h : x1 ≤ x2) :
    clampDepth wt x1 ≤ clampDepth wt x2 :=
  max_le_max le_rfl (min_le_min h le_rfl)

/-- The capacity formula is antitone in depth for physical geometry. -/
theorem capacity_anti {s wt dia : ℚ} (hs : 0 < s) (hwt : 0 < wt) (hdia : 0 < dia)
    {d1 d2 : ℚ} (h : d1 ≤ d2) :
    capacity s wt dia d2 ≤ capacity s wt dia d1 := by
  unfold capacity
  have hC : (0 : ℚ) ≤ 2 * s * wt / dia := by positivity
  have h2 : d1 / wt ≤ d2 / wt := (div_le_div_iff_of_pos_right hwt).mpr h
  have h3 : 1 - d2 / wt ≤ 1 - d1 / wt := by linarith
  exact mul_le_mul_of_nonneg_left h3 hC

/-- A sampled depth realization is non-decreasing in the year offset. -/
theorem sampleDepth_mono (d : EngineDefect) (hr : 0 ≤ d.rate) {k1 k2 : ℕ}
    (hk : k1 ≤ k2) (e : ℚ) :
    sampleDepth d k1 e ≤ sampleDepth d k2 e := by
  unfold sampleDepth
  exact clampDepth_mono _ (add_le_add_right (depth_mono _ _ _ hr hk) _)

/-- A sample that fails at an earlier year also fails at any later year. -/
theorem sampleFails_mono (d : EngineDefect) (hs : 0 < d.strength) (hwt : 0 < d.wt)
    (hdia : 0 < d.dia) (hr : 0 ≤ d.rate) {k1 k2 : ℕ} (hk : k1 ≤ k2) (e : ℚ)
    (h : sampleFails d k1 e = true) : sampleFails d k2 e = true := by
  unfold sampleFails at h ⊢
  rw [decide_eq_true_iff] at h ⊢
  calc capacity d.strength d.wt d.dia (sampleDepth d k2 e)
      ≤ capacity d.strength d.wt d.dia (sampleDepth d k1 e) :=
        capacity_anti hs hwt hdia (sampleDepth_mono d hr hk e)
    _ < d.demand := h

/-- The Monte Carlo POF estimate is non-negative. -/
theorem pofMC_nonneg (d : EngineDefect) (noise : List ℚ) (k : ℕ) :
    0 ≤ pofMC d noise k := by
  unfold pofMC
  positivity

/-- The Monte Carlo POF estimate is at most one. -/
theorem pofMC_le_one (d : EngineDefect) (noise : List ℚ) (k : ℕ) :
    pofMC d noise k ≤ 1 := by
  unfold pofMC
  have hc : noise.countP (sampleFails d k) ≤ noise.length := List.countP_le_length _
  rcases Nat.eq_zero_or_pos noise.length with h0 | h0
  · have hzero : noise.countP (sampleFails d k) = 0 := Nat.le_zero.mp (h0 ▸ hc)
    rw [hzero, h0]
    norm_num
  · rw [div_le_one (by exact_mod_cast h0)]
    exact_mod_cast hc

/-- The Monte Carlo POF estimate is non-decreasing in the year offset for
a fixed noise stream. -/
theorem pofMC_mono (d : EngineDefect) (noise : List ℚ) (hs : 0 < d.strength)
    (hwt : 0 < d.wt) (hdia : 0 < d.dia) (hr : 0 ≤ d.rate) {k1 k2 : ℕ} (hk : k1 ≤ k2) :
    pofMC d noise k1 ≤ pofMC d noise k2 := by
  unfold pofMC
  have hc : noise.countP (sampleFails d k1) ≤ noise.countP (sampleFails d k2) :=
    List.countP_mono_left (fun e _ h => sampleFails_mono d hs hwt hdia hr hk e h)
  rcases Nat.eq_zero_or_pos noise.length with h0 | h0
  · rw [h0]
    norm_num
  · have hlen : (0 : ℚ) < ((noise.length : ℕ) : ℚ) := by exact_mod_cast h0
    exact (div_le_div_iff_of_pos_right hlen).mpr (by exact_mod_cast hc)

/-- C1: For every defect with growth rate >= 0 and a fixed random seed
(hence a fixed noise stream), the POF reported for that defect is
non-decreasing as the projection year increases, holding demand fixed. -/
theorem C1_pof_monotone_in_year (d : EngineDefect) (seed n : ℕ) (k1 k2 : ℕ)
    (hs : 0 < d.strength) (hwt : 0 < d.wt) (hdia : 0 < d.dia) (hr : 0 ≤ d.rate)
    (hk : k1 ≤ k2) :
    pofMC d (noiseStream seed n) k1 ≤ pofMC d (noiseStream seed n) k2 :=
  pofMC_mono d (noiseStream seed n) hs hwt hdia hr hk

/-- Witness for C1 at a concrete defect, seed and pair of years. -/
theorem C1_pof_monotone_in_year_witness :
    pofMC ⟨1, 0, 5, 1, 10, 5, 100, 300, 0⟩ (noiseStream 7 2) 1
      ≤ pofMC ⟨1, 0, 5, 1, 10, 5, 100, 300, 0⟩ (noiseStream 7 2) 3 :=
  C1_pof_monotone_in_year ⟨1, 0, 5, 1, 10, 5, 100, 300, 0⟩ 7 2 1 3
    (by decide) (by decide) (by decide) (by decide) (by decide)

/-- C2: every row of the per-(defect, year) POF table carries a POF value
in the closed interval [0, 1], for all inputs. -/
theorem C2_pof_in_unit_interval (defects : List EngineDefect) (noise : List ℚ)
    (numYears : ℕ) (row : PofRow)
    (hrow : row ∈ (runEngine defects noise numYears).1) :
    0 ≤ row.POF ∧ row.POF ≤ 1 := by
  unfold runEngine at hrow
  simp only [List.mem_flatMap] at hrow
  obtain ⟨d, _, hd⟩ := hrow
  unfold defectRows at hd
  simp only [List.mem_map, List.mem_range] at hd
  obtain ⟨k, _, hk⟩ := hd
  subst hk
  exact ⟨pofMC_nonneg d noise k, pofMC_le_one d noise k⟩

/-- Witness for C2 at a concrete one-defect table. -/
theorem C2_pof_in_unit_interval_witness :
    0 ≤ (PofRow.mk 1 0 0 (pofMC ⟨1, 0, 0, 0, 10, 5, 100, 1, 0⟩ [0] 0)).POF
    ∧ (PofRow.mk 1 0 0 (pofMC ⟨1, 0, 0, 0, 10, 5, 100, 1, 0⟩ [0] 0)).POF ≤ 1 :=
  C2_pof_in_unit_interval [⟨1, 0, 0, 0, 10, 5, 100, 1, 0⟩] [0] 0
    (PofRow.mk 1 0 0 (pofMC ⟨1, 0, 0, 0, 10, 5, 100, 1, 0⟩ [0] 0)) (List.Mem.head _)

/-- C3: GrowthProjector.depth is exactly min (depth0 + rate * k,
wall_thickness) for every year offset k, and with depth0 = 5mm,
rate = 0.2mm per year and wall thickness 10mm, depth(20) = 9mm and
depth(30) = 10mm (clamped). -/
theorem C3_depth_formula :
    (∀ (depth0 rate wall_thickness : ℚ) (k : ℕ),
        GrowthProjector.depth depth0 rate wall_thickness k
          = min (depth0 + rate * (k : ℚ)) wall_thickness)
    ∧ GrowthProjector.depth 5 (1/5) 10 20 = 9
    ∧ GrowthProjector.depth 5 (1/5) 10 30 = 10 :=
  ⟨fun _ _ _ _ => rfl,
    by norm_num [GrowthProjector.depth, min_def],
    by norm_num [GrowthProjector.depth, min_def]⟩

/-- C4: where a field-verified depth exists, the consolidated record uses
it as the best-available depth exactly, and the ML prediction is retained
only as a diagnostic, never overwriting it. -/
theorem C4_field_depth_is_ground_truth (m : Model) (threshold : ℚ)
    (r : DefectRecord) (v : ℚ) (hf : r.fieldDepth = some v) :
    (consolidate (Except.ok m) threshold r).bestAvailableDepth = v
    ∧ (consolidate (Except.ok m) threshold r).predDepthML = some (predict m r) := by
  simp [consolidate, bestDepth, hf]

/-- Witness for C4 at a concrete record with a field-verified depth. -/
theorem C4_field_depth_is_ground_truth_witness :
    (consolidate (Except.ok ⟨2⟩) (1/10)
        ⟨1, 0, "Pitting", 3, some 4, 0, 0, 10, 5, 100, 1⟩).bestAvailableDepth = 4
    ∧ (consolidate (Except.ok ⟨2⟩) (1/10)
        ⟨1, 0, "Pitting", 3, some 4, 0, 0, 10, 5, 100, 1⟩).predDepthML
      = some (predict ⟨2⟩ ⟨1, 0, "Pitting", 3, some 4, 0, 0, 10, 5, 100, 1⟩) :=
  C4_field_depth_is_ground_truth ⟨2⟩ (1/10)
    ⟨1, 0, "Pitting", 3, some 4, 0, 0, 10, 5, 100, 1⟩ 4 rfl

/-- C5 (counterexample): the per-(defect, year) POF table read by the
dashboard has no column named joint_id; the defect-identifier column is
labelled Junta_ID (src/visualization.py lines 161-207). -/
theorem C5_counterexample_no_joint_id_column :
    "joint_id" ∉ pofResultColumns := by decide

/-- C5 (amended): run_simulation takes exactly (dataframes, ili_date,
target_date, tolerance_table, detection_threshold) in that order and
returns a bundle containing the consolidated per-defect table, the
per-(defect, year) POF table whose columns are Junta_ID, Year, Distance
and POF, the feature-importance table, the uncertainty-status flag and
the optional per-record attribution artifacts. -/
theorem C5_entry_point_contract (dataframes : List DefectRecord)
    (ili_date target_date : ℤ) (tolerance_table : List (String × ℚ))
    (detection_threshold : ℚ) :
    pofResultColumns = ["Junta_ID", "Year", "Distance", "POF"]
    ∧ (run_simulation dataframes ili_date target_date tolerance_table
        detection_threshold).master_df
      = (orchestrateDepths detection_threshold dataframes).consolidated
    ∧ (run_simulation dataframes ili_date target_date tolerance_table
        detection_threshold).pof_results
      = (runEngine
          (dataframes.map (fun r =>
            toEngineDefect tolerance_table (bestDepth (trainModel dataframes) r) r))
          (noiseStream defaultSeed defaultSampleCount)
          (target_date - ili_date).toNat).1
    ∧ (run_simulation dataframes ili_date target_date tolerance_table
        detection_threshold).feature_importance
      = (orchestrateDepths detection_threshold dataframes).featureImportance
    ∧ (run_simulation dataframes ili_date target_date tolerance_table
        detection_threshold).ml_uncertainty_status
      = (orchestrateDepths detection_threshold dataframes).status
    ∧ (run_simulation dataframes ili_date target_date tolerance_table
        detection_threshold).shap_values
      = (orchestrateDepths detection_threshold dataframes).shapValues :=
  ⟨rfl, rfl, rfl, rfl, rfl, rfl⟩

/-- C6: two runs with identical input tables, parameters and random seed
produce identical POF tables; the run and its seeded sample stream are
deterministic functions of the inputs and the seed. -/
theorem C6_deterministic_runs (df1 df2 : List DefectRecord) (i1 i2 t1 t2 : ℤ)
    (tab1 tab2 : List (String × ℚ)) (thr1 thr2 : ℚ) (s1 s2 n : ℕ)
    (hdf : df1 = df2) (hi : i1 = i2) (ht : t1 = t2) (htab : tab1 = tab2)
    (hthr : thr1 = thr2) (hs : s1 = s2) :
    run_simulation df1 i1 t1 tab1 thr1 = run_simulation df2 i2 t2 tab2 thr2
    ∧ noiseStream s1 n = noiseStream s2 n := by
  subst hdf
  subst hi
  subst ht
  subst htab
  subst hthr
  subst hs
  exact ⟨rfl, rfl⟩

/-- Witness for C6 at concrete identical inputs and seed. -/
theorem C6_deterministic_runs_witness :
    run_simulation [] 2023 2028 [] 0 = run_simulation [] 2023 2028 [] 0
    ∧ noiseStream 42 3 = noiseStream 42 3 :=
  C6_deterministic_runs [] [] 2023 2023 2028 2028 [] [] 0 0 42 42 3
    rfl rfl rfl rfl rfl rfl

/-- C7: a defect with non-physical inputs (negative depth or wall
thickness at most zero) is reported as excluded in the diagnostics, no
row of the Monte Carlo POF table carries its identifier, and every POF
value in the table is a well-defined rational in [0, 1] (never NaN). -/
theorem C7_nonphysical_excluded (defects : List EngineDefect) (noise : List ℚ)
    (numYears : ℕ) (huniq : defects.Pairwise (fun a b => a.id ≠ b.id))
    (d : EngineDefect) (hd : d ∈ defects) (hnp : nonPhysical d = true)
    (row : PofRow) (hrow : row ∈ (runEngine defects noise numYears).1) :
    d.id ∈ (runEngine defects noise numYears).2
    ∧ row.Junta_ID ≠ d.id
    ∧ (0 ≤ row.POF ∧ row.POF ≤ 1) := by
  unfold runEngine at hrow ⊢
  simp only [List.mem_flatMap] at hrow
  obtain ⟨a, ha, hrowa⟩ := hrow
  obtain ⟨hamem, hap⟩ := List.mem_filter.mp ha
  unfold defectRows at hrowa
  simp only [List.mem_map, List.mem_range] at hrowa
  obtain ⟨k, _, hk⟩ := hrowa
  subst hk
  have hane : a ≠ d := by
    intro h
    rw [h, hnp] at hap
    simp at hap
  refine ⟨?_, ?_, pofMC_nonneg a noise k, pofMC_le_one a noise k⟩
  · simp only [List.mem_map]
    exact ⟨d, List.mem_filter.mpr ⟨hd, hnp⟩, rfl⟩
  · exact List.Pairwise.forall (fun x y h => h.symm) huniq hamem hd hane

/-- Witness for C7 at a two-defect table with one non-physical defect
(wall thickness zero). -/
theorem C7_nonphysical_excluded_witness :
    2 ∈ (runEngine [⟨1, 0, 0, 0, 10, 5, 100, 1, 0⟩, ⟨2, 1, 5, 0, 0, 5, 100, 1, 0⟩]
          [0] 0).2
    ∧ (PofRow.mk 1 0 0 (pofMC ⟨1, 0, 0, 0, 10, 5, 100, 1, 0⟩ [0] 0)).Junta_ID ≠ 2
    ∧ (0 ≤ (PofRow.mk 1 0 0 (pofMC ⟨1, 0, 0, 0, 10, 5, 100, 1, 0⟩ [0] 0)).POF
        ∧ (PofRow.mk 1 0 0 (pofMC ⟨1, 0, 0, 0, 10, 5, 100, 1, 0⟩ [0] 0)).POF ≤ 1) :=
  C7_nonphysical_excluded
    [⟨1, 0, 0, 0, 10, 5, 100, 1, 0⟩, ⟨2, 1, 5, 0, 0, 5, 100, 1, 0⟩] [0] 0
    (by decide) ⟨2, 1, 5, 0, 0, 5, 100, 1, 0⟩ (List.Mem.tail _ (List.Mem.head _))
    (by decide)
    (PofRow.mk 1 0 0 (pofMC ⟨1, 0, 0, 0, 10, 5, 100, 1, 0⟩ [0] 0)) (List.Mem.head _)

/-- C8: with zero field-verified training rows the imputation model fails
with InsufficientTrainingDataError, the Orchestrator catches it, the run
completes using the ILI-measured depth directly for every defect, and the
uncertainty status is set to unavailable; the whole run is never aborted
for this condition. -/
theorem C8_insufficient_training_fallback (threshold : ℚ)
    (records : List DefectRecord) (ili_date target_date : ℤ)
    (tolerance_table : List (String × ℚ)) (r : DefectRecord)
    (_hr : r ∈ records)
    (h : records.countP (fun x => x.fieldDepth.isSome) = 0) :
    trainModel records = Except.error ModelError.insufficientTrainingData
    ∧ (orchestrateDepths threshold records).status = UncStatus.unavailable
    ∧ (consolidate (trainModel records) threshold r).bestAvailableDepth = r.iliDepth
    ∧ (run_simulation records ili_date target_date tolerance_table
        threshold).ml_uncertainty_status = UncStatus.unavailable := by
  have hl : (records.filterMap (fun x => x.fieldDepth)).length = 0 := by
    rw [List.length_filterMap_eq_countP]
    exact h
  have htm : trainModel records = Except.error ModelError.insufficientTrainingData := by
    unfold trainModel
    simp [hl]
  refine ⟨htm, ?_, ?_, ?_⟩
  · simp [orchestrateDepths, htm]
  · simp [consolidate, bestDepth, htm]
  · simp [run_simulation, orchestrateDepths, htm]

/-- Witness for C8 at a one-record input with no field-verified depth. -/
theorem C8_insufficient_training_fallback_witness :
    trainModel [⟨1, 0, "Pitting", 3, none, 0, 0, 10, 5, 100, 1⟩]
      = Except.error ModelError.insufficientTrainingData
    ∧ (orchestrateDepths 0 [⟨1, 0, "Pitting", 3, none, 0, 0, 10, 5, 100, 1⟩]).status
      = UncStatus.unavailable
    ∧ (consolidate (trainModel [⟨1, 0, "Pitting", 3, none, 0, 0, 10, 5, 100, 1⟩]) 0
        ⟨1, 0, "Pitting", 3, none, 0, 0, 10, 5, 100, 1⟩).bestAvailableDepth
      = (⟨1, 0, "Pitting", 3, none, 0, 0, 10, 5, 100, 1⟩ : DefectRecord).iliDepth
    ∧ (run_simulation [⟨1, 0, "Pitting", 3, none, 0, 0, 10, 5, 100, 1⟩] 2023 2028 []
        0).ml_uncertainty_status = UncStatus.unavailable :=
  C8_insufficient_training_fallback 0 [⟨1, 0, "Pitting", 3, none, 0, 0, 10, 5, 100, 1⟩]
    2023 2028 [] ⟨1, 0, "Pitting", 3, none, 0, 0, 10, 5, 100, 1⟩
    (List.Mem.head _) rfl

/-- C9: every run launched from the UI passes run_simulation a detection
threshold equal to a whole-percent slider value divided by 100; it
therefore lies in [0, 1/5], strictly narrower than the [0, 1] constraint
the spec states for the parameter. -/
theorem C9_threshold_is_bounded_percent (p : ℕ)
    (hp : sliderMin ≤ p ∧ p ≤ sliderMax) :
    0 ≤ detectionThresholdOfSlider p
    ∧ detectionThresholdOfSlider p ≤ 1/5
    ∧ detectionThresholdOfSlider p = ((p : ℕ) : ℚ) / 100
    ∧ (1 : ℚ)/5 < 1 := by
  obtain ⟨_, hp2⟩ := hp
  have hp20 : p ≤ 20 := hp2
  refine ⟨?_, ?_, rfl, by norm_num⟩
  · unfold detectionThresholdOfSlider
    positivity
  · unfold detectionThresholdOfSlider
    have h20 : ((p : ℕ) : ℚ) ≤ 20 := by exact_mod_cast hp20
    have h15 : (1 : ℚ)/5 = 20/100 := by norm_num
    rw [h15]
    exact (div_le_div_iff_of_pos_right (by norm_num)).mpr h20

/-- Witness for C9 at the default slider position of 10 percent. -/
theorem C9_threshold_is_bounded_percent_witness :
    0 ≤ detectionThresholdOfSlider 10
    ∧ detectionThresholdOfSlider 10 ≤ 1/5
    ∧ detectionThresholdOfSlider 10 = ((10 : ℕ) : ℚ) / 100
    ∧ (1 : ℚ)/5 < 1 :=
  C9_threshold_is_bounded_percent 10 (by decide)

/-- C10: if data loading or run_simulation raises, the stored simulation
results are left unchanged; the prior bundle, or None on a first run,
remains, so a failed run never replaces previous results with partial
ones. -/
theorem C10_failed_run_preserves_results {D B : Type} (prior : Option B)
    (load : Except String D) (runSim : D → Except String B) :
    (∀ e, load = Except.error e → processRunClick prior load runSim = prior)
    ∧ (∀ dfs e, load = Except.ok dfs → runSim dfs = Except.error e →
        processRunClick prior load runSim = prior) := by
  constructor
  · intro e he
    rw [he]
    rfl
  · intro dfs e he hrs
    rw [he]
    simp [processRunClick, hrs]

/-- Witness for C10: a failing loader keeps the prior bundle, and a
failing simulation keeps the prior bundle. -/
theorem C10_failed_run_preserves_results_witness :
    processRunClick (some 1) (Except.error "load failed")
      (Except.ok : ℕ → Except String ℕ) = some 1
    ∧ processRunClick (some 2) (Except.ok 5) failingRun = some 2 :=
  ⟨(C10_failed_run_preserves_results (some 1) (Except.error "load failed")
      (Except.ok : ℕ → Except String ℕ)).1 "load failed" rfl,
    (C10_failed_run_preserves_results (some 2) (Except.ok 5) failingRun).2 5
      "simulation failed" rfl rfl⟩
